import Mathlib

/-!
Verification of the chatbot repository: a shallow embedding of the Streamlit
session UI (`src/chatbot/app.py`) and of the model wrapper `generate_response`
(`src/chatbot/.ipynb_checkpoints/backend-checkpoint.py`), with theorems about
the transcript life cycle, validation, error handling and the generation
pipeline.

The external collaborators (the Streamlit framework and the transformers
runtime) are opaque: the tokenizer and model appear as an abstract
`ModelRuntime` whose calls may fail (`Except.error` plays the role of a raised
Python exception), and the per-submission body of the `st.button("Send")`
handler is embedded as the pure state transformer `handleSend` over the
session's `chat_log` list.
-/

/-- Python `str.strip()` with no argument: remove leading and trailing
whitespace characters. -/
def strip (s : String) : String :=
  String.mk
    (((s.data.dropWhile Char.isWhitespace).reverse.dropWhile
        Char.isWhitespace).reverse)

/-- A transcript entry: the dict `{"user": ..., "bot": ...}` that `app.py`
appends to `st.session_state.chat_log`. -/
structure ChatEntry where
  user : String
  bot : String
deriving DecidableEq, Repr

/-- The external pretrained-model runtime consumed by `backend-checkpoint.py`:
`tokenizer.encode`, `model.generate` (taking the token inputs and the
`max_length`, `num_return_sequences` and `no_repeat_ngram_size` arguments, and
returning a batch of token sequences) and `tokenizer.decode` (taking the
`skip_special_tokens` flag).  Each call may raise, which the embedding renders
as `Except.error` carrying the exception text. -/
structure ModelRuntime where
  encode : String → Except String (List Nat)
  generate : List Nat → Nat → Nat → Nat → Except String (List (List Nat))
  decode : List Nat → Bool → Except String String

/-- `generate_response` from `backend-checkpoint.py`:
encode the prompt, call `model.generate(inputs, max_length=50,
num_return_sequences=1, no_repeat_ngram_size=2)`, take `outputs[0]` (a Python
`IndexError` if the batch were empty) and decode it with
`skip_special_tokens=True`.  Any exception from the runtime propagates. -/
def generate_response (rt : ModelRuntime) (prompt : String) : Except String String :=
  match rt.encode prompt with
  | Except.error e => Except.error e
  | Except.ok inputs =>
    match rt.generate inputs 50 1 2 with
    | Except.error e => Except.error e
    | Except.ok outputs =>
      match outputs with
      | [] => Except.error "IndexError: list index out of range"
      | o :: _ => rt.decode o true

/-- The entry appended at submission time:
`{"user": user_input, "bot": "Thinking..."}` (app.py line 19). -/
def pendingEntry (input : String) : ChatEntry :=
  { user := input, bot := "Thinking..." }

/-- The in-place mutation `chat_log[-1]["bot"] = b` (app.py lines 25 and 27):
replace the `bot` field of the last entry, keeping everything else. -/
def setLastBot : List ChatEntry → String → List ChatEntry
  | [], _ => []
  | [c], b => [{ c with bot := b }]
  | c :: c2 :: rest, b => c :: setLastBot (c2 :: rest) b

/-- The transcript as it stands while the generation call is in flight:
the previous log with the pending placeholder entry appended (app.py line 19,
before the `try` block runs). -/
def midLog (log : List ChatEntry) (input : String) : List ChatEntry :=
  log ++ [pendingEntry input]

/-- One submission event: the body of `if st.button("Send"):` in `app.py`,
parameterised by the generator `g` (the call `generate_response(user_input)`,
whose failure is an `Except.error`).  Returns the new `chat_log` together with
the list of `st.error` notices shown during the submission. -/
def handleSend (g : String → Except String String) (log : List ChatEntry)
    (input : String) : List ChatEntry × List String :=
  if strip input = "" then
    (log, ["Please enter a message."])
  else
    match g input with
    | Except.ok r => (setLastBot (midLog log input) r, [])
    | Except.error e =>
        (setLastBot (midLog log input) "Error: Unable to process your request.",
         ["An error occurred: " ++ e])

/-- The terminal value the pending entry resolves to: the generated text on
success, the fixed error marker on failure. -/
def terminalOf : Except String String → String
  | Except.ok r => r
  | Except.error _ => "Error: Unable to process your request."

/-- A whole session: fold the submission handler over a list of submission
events, each carrying the submitted input and the generator behaviour for that
call, starting from the empty transcript (`chat_log` initialised to `[]`). -/
def runSession (evs : List (String × (String → Except String String))) :
    List ChatEntry :=
  evs.foldl (fun log ev => (handleSend ev.2 log ev.1).1) []

/-- The two markdown lines the display loop emits for one entry
(app.py lines 33 and 34). -/
def renderEntry (c : ChatEntry) : List String :=
  ["**You:** " ++ c.user, "**Bot:** " ++ c.bot]

/-- The display loop `for chat in st.session_state.chat_log:` as a fold that
accumulates the emitted lines in order. -/
def renderLoop (log : List ChatEntry) : List String :=
  log.foldl (fun out c => out ++ renderEntry c) []

/-- The full chat display area: the `### Chat Log:` header followed by the
lines of the display loop. -/
def renderTranscript (log : List ChatEntry) : List String :=
  "### Chat Log:" :: renderLoop log

/-- A UI interaction: either a submission (with its generator behaviour) or a
render pass over the current transcript. -/
inductive UIEvent where
  | submit (input : String) (g : String → Except String String)
  | render

/-- Run a list of UI interactions from a given transcript, returning the final
transcript and the rendered output of each render pass, in order. -/
def runUI : List UIEvent → List ChatEntry → List ChatEntry × List (List String)
  | [], log => (log, [])
  | UIEvent.submit i g :: rest, log => runUI rest (handleSend g log i).1
  | UIEvent.render :: rest, log =>
      let p := runUI rest log
      (p.1, renderTranscript log :: p.2)

/-- A generator that always succeeds with the literal sentinel string, used to
exhibit the sentinel-collision counterexamples. -/
def genSentinel : String → Except String String :=
  fun _ => Except.ok "Thinking..."

/-- A generator that always succeeds with the reply `"Hi"`. -/
def genOkHi : String → Except String String :=
  fun _ => Except.ok "Hi"

/-- A generator that always succeeds with the reply `"Yo"`. -/
def genOkYo : String → Except String String :=
  fun _ => Except.ok "Yo"

/-- A generator that always raises with the message `"boom"`. -/
def genBoom : String → Except String String :=
  fun _ => Except.error "boom"

/-- A concrete well-behaved model runtime used as a witness. -/
def rtDemo : ModelRuntime where
  encode := fun _ => Except.ok [0]
  generate := fun inputs _ _ _ => Except.ok [inputs ++ [1]]
  decode := fun _ _ => Except.ok ""

lemma setLastBot_append (log : List ChatEntry) (c : ChatEntry) (b : String) :
    setLastBot (log ++ [c]) b = log ++ [{ c with bot := b }] := by
  induction log with
  | nil => rfl
  | cons hd tl ih =>
    cases tl with
    | nil => rfl
    | cons hd2 tl2 =>
      simpa [setLastBot] using ih

lemma handleSend_ok (g : String → Except String String) (log : List ChatEntry)
    (input r : String) (h : strip input ≠ "") (hr : g input = Except.ok r) :
    handleSend g log input = (log ++ [{ user := input, bot := r }], []) := by
  unfold handleSend
  rw [if_neg h, hr]
  simp [midLog, pendingEntry, setLastBot_append]

lemma handleSend_err (g : String → Except String String) (log : List ChatEntry)
    (input e : String) (h : strip input ≠ "") (he : g input = Except.error e) :
    handleSend g log input =
      (log ++ [{ user := input, bot := "Error: Unable to process your request." }],
       ["An error occurred: " ++ e]) := by
  unfold handleSend
  rw [if_neg h, he]
  simp [midLog, pendingEntry, setLastBot_append]

lemma handleSend_terminal (g : String → Except String String)
    (log : List ChatEntry) (input : String) (h : strip input ≠ "") :
    (handleSend g log input).1 =
      log ++ [{ user := input, bot := terminalOf (g input) }] := by
  cases hg : g input with
  | ok r => simp [handleSend_ok g log input r h hg, hg, terminalOf]
  | error e => simp [handleSend_err g log input e h hg, hg, terminalOf]

/-- Claim C3: a submission whose input is empty or whitespace-only shows the
validation notice, leaves the transcript exactly as it was, and never consults
the generator (the result is the same for every generator). -/
theorem c3_validation (g g2 : String → Except String String)
    (log : List ChatEntry) (input : String) (h : strip input = "") :
    handleSend g log input = (log, ["Please enter a message."]) ∧
    handleSend g log input = handleSend g2 log input := by
  constructor
  · unfold handleSend
    rw [if_pos h]
  · unfold handleSend
    rw [if_pos h, if_pos h]

/-- Claim C3, witness: the whitespace-only input `"   "` with two different
generators. -/
theorem c3_validation_witness :
    handleSend genOkHi [pendingEntry "x"] "   " =
      ([pendingEntry "x"], ["Please enter a message."]) ∧
    handleSend genOkHi [pendingEntry "x"] "   " =
      handleSend genBoom [pendingEntry "x"] "   " :=
  c3_validation genOkHi genBoom [pendingEntry "x"] "   " (by decide)

/-- Claim C1, counterexample: the generator may succeed with the literal string
`"Thinking..."`; then the premises of C1 hold (valid input, successful call),
the last entry's bot field equals the returned string, yet that bot field is
the placeholder string, contradicting the final conjunct of the claim. -/
theorem c1_counterexample :
    strip "Hello" ≠ "" ∧
    genSentinel "Hello" = Except.ok "Thinking..." ∧
    (handleSend genSentinel [] "Hello").1 =
      [{ user := "Hello", bot := "Thinking..." }] := by
  refine ⟨by decide, rfl, ?_⟩
  rfl

/-- Claim C1 (amended): after a submission with non-whitespace input whose
generator call succeeds with `R`, the last transcript entry has `user` equal to
the input and `bot` equal to `R`; whenever `R` is not itself the literal string
`"Thinking..."`, the bot field differs from the placeholder. -/
theorem c1_success_last_entry (g : String → Except String String)
    (log : List ChatEntry) (input r : String)
    (h : strip input ≠ "") (hr : g input = Except.ok r) :
    (handleSend g log input).1.getLast? = some { user := input, bot := r } ∧
    (r ≠ "Thinking..." →
      (handleSend g log input).1.getLast?.map ChatEntry.bot ≠
        some "Thinking...") := by
  rw [handleSend_ok g log input r h hr]
  constructor
  · simp
  · intro hne
    simp [hne]

/-- Claim C1, witness: submitting `"Hello"` against a generator answering
`"Hi"`. -/
theorem c1_success_last_entry_witness :
    (handleSend genOkHi [] "Hello").1.getLast? =
      some { user := "Hello", bot := "Hi" } ∧
    ("Hi" ≠ "Thinking..." →
      (handleSend genOkHi [] "Hello").1.getLast?.map ChatEntry.bot ≠
        some "Thinking...") :=
  c1_success_last_entry genOkHi [] "Hello" "Hi" (by decide) rfl

/-- Claim C2: when the generator raises, the submission is recovered at the UI
boundary: the handler returns normally with the last entry's bot field set to
the fixed error marker and a visible notice carrying the raw failure
description, and the session keeps accepting submissions (a later valid,
successful submission appends its entry as usual). -/
theorem c2_generation_failure (g : String → Except String String)
    (log : List ChatEntry) (input e : String)
    (h : strip input ≠ "") (he : g input = Except.error e) :
    handleSend g log input =
      (log ++ [{ user := input, bot := "Error: Unable to process your request." }],
       ["An error occurred: " ++ e]) ∧
    (handleSend g log input).1.getLast?.map ChatEntry.bot =
      some "Error: Unable to process your request." ∧
    ∀ g2 input2 r2, strip input2 ≠ "" → g2 input2 = Except.ok r2 →
      (handleSend g2 (handleSend g log input).1 input2).1 =
        (handleSend g log input).1 ++ [{ user := input2, bot := r2 }] := by
  have hmain := handleSend_err g log input e h he
  refine ⟨hmain, ?_, ?_⟩
  · rw [hmain]
    simp
  · intro g2 input2 r2 h2 hr2
    rw [handleSend_ok g2 (handleSend g log input).1 input2 r2 h2 hr2]

/-- Claim C2, witness: a failing generator on input `"Hello"`, followed by a
successful submission of `"Again"`. -/
theorem c2_generation_failure_witness :
    handleSend genBoom [] "Hello" =
      ([{ user := "Hello", bot := "Error: Unable to process your request." }],
       ["An error occurred: boom"]) ∧
    (handleSend genBoom [] "Hello").1.getLast?.map ChatEntry.bot =
      some "Error: Unable to process your request." ∧
    ∀ g2 input2 r2, strip input2 ≠ "" → g2 input2 = Except.ok r2 →
      (handleSend g2 (handleSend genBoom [] "Hello").1 input2).1 =
        (handleSend genBoom [] "Hello").1 ++ [{ user := input2, bot := r2 }] :=
  c2_generation_failure genBoom [] "Hello" "boom" (by decide) rfl

/-- Claim C7: submitting valid input `a` and then valid input `b`, with the
generator answering `ra` and `rb`, yields exactly the two-entry transcript in
chronological order, and the display renders it in the same order. -/
theorem c7_ordering (a b ra rb : String)
    (gA gB : String → Except String String)
    (ha : strip a ≠ "") (hb : strip b ≠ "")
    (hra : gA a = Except.ok ra) (hrb : gB b = Except.ok rb) :
    runSession [(a, gA), (b, gB)] =
      [{ user := a, bot := ra }, { user := b, bot := rb }] ∧
    renderTranscript (runSession [(a, gA), (b, gB)]) =
      ["### Chat Log:", "**You:** " ++ a, "**Bot:** " ++ ra,
       "**You:** " ++ b, "**Bot:** " ++ rb] := by
  have h1 : runSession [(a, gA), (b, gB)] =
      [{ user := a, bot := ra }, { user := b, bot := rb }] := by
    unfold runSession
    simp [List.foldl, handleSend_ok gA [] a ra ha hra,
      handleSend_ok gB [{ user := a, bot := ra }] b rb hb hrb]
  refine ⟨h1, ?_⟩
  rw [h1]
  simp [renderTranscript, renderLoop, renderEntry]

/-- Claim C7, witness: the session `"A"` then `"B"` with fixed replies. -/
theorem c7_ordering_witness :
    runSession [("A", genOkHi), ("B", genOkYo)] =
      [{ user := "A", bot := "Hi" }, { user := "B", bot := "Yo" }] ∧
    renderTranscript (runSession [("A", genOkHi), ("B", genOkYo)]) =
      ["### Chat Log:", "**You:** A", "**Bot:** Hi",
       "**You:** B", "**Bot:** Yo"] :=
  c7_ordering "A" "B" "Hi" "Yo" genOkHi genOkYo
    (by decide) (by decide) rfl rfl

/-- Claim C8: the lifecycle of a transcript entry.  For a valid submission the
entry is created as the pending placeholder at the end of the transcript, then
mutated exactly once into the terminal value (the generated text on success,
the error marker on failure); the mutation changes only the bot field, the
earlier entries are untouched, and no entry is deleted. -/
theorem c8_entry_lifecycle (g : String → Except String String)
    (log : List ChatEntry) (input : String) (h : strip input ≠ "") :
    (midLog log input).getLast? = some { user := input, bot := "Thinking..." } ∧
    (handleSend g log input).1 =
      (midLog log input).dropLast ++
        [{ user := input, bot := terminalOf (g input) }] ∧
    (midLog log input).dropLast = log ∧
    (handleSend g log input).1.take log.length = log ∧
    (∀ r, g input = Except.ok r → terminalOf (g input) = r) ∧
    (∀ e, g input = Except.error e →
      terminalOf (g input) = "Error: Unable to process your request.") ∧
    (handleSend g log input).1.getLast?.map ChatEntry.user = some input := by
  have hdrop : (midLog log input).dropLast = log := by
    simp [midLog]
  have hterm := handleSend_terminal g log input h
  refine ⟨by simp [midLog, pendingEntry], ?_, hdrop, ?_, ?_, ?_, ?_⟩
  · rw [hterm, hdrop]
  · rw [hterm]
    simp
  · intro r hr
    rw [hr]
    rfl
  · intro e he
    rw [he]
    rfl
  · rw [hterm]
    simp

/-- Claim C8, witness: a concrete valid submission on a one-entry log. -/
theorem c8_entry_lifecycle_witness :
    (midLog [{ user := "A", bot := "Hi" }] "B").getLast? =
      some { user := "B", bot := "Thinking..." } ∧
    (handleSend genOkHi [{ user := "A", bot := "Hi" }] "B").1 =
      (midLog [{ user := "A", bot := "Hi" }] "B").dropLast ++
        [{ user := "B", bot := terminalOf (genOkHi "B") }] ∧
    (midLog [{ user := "A", bot := "Hi" }] "B").dropLast =
      [{ user := "A", bot := "Hi" }] ∧
    (handleSend genOkHi [{ user := "A", bot := "Hi" }] "B").1.take 1 =
      [{ user := "A", bot := "Hi" }] ∧
    (∀ r, genOkHi "B" = Except.ok r → terminalOf (genOkHi "B") = r) ∧
    (∀ e, genOkHi "B" = Except.error e →
      terminalOf (genOkHi "B") = "Error: Unable to process your request.") ∧
    (handleSend genOkHi [{ user := "A", bot := "Hi" }] "B").1.getLast?.map
      ChatEntry.user = some "B" :=
  c8_entry_lifecycle genOkHi [{ user := "A", bot := "Hi" }] "B" (by decide)

/-- Claim C9: rendering the transcript twice with no submission in between
leaves the transcript unchanged and produces the same rendered sequence both
times, namely the one determined by the transcript alone. -/
theorem c9_render_idempotent (log : List ChatEntry) :
    runUI [UIEvent.render, UIEvent.render] log =
      (log, [renderTranscript log, renderTranscript log]) := by
  rfl

lemma handleSend_invalid (g : String → Except String String)
    (log : List ChatEntry) (input : String) (h : strip input = "") :
    handleSend g log input = (log, ["Please enter a message."]) := by
  unfold handleSend
  rw [if_pos h]

lemma foldl_handleSend_inv (P : ChatEntry → Prop) :
    ∀ (evs : List (String × (String → Except String String)))
      (log : List ChatEntry),
      (∀ c ∈ log, P c) →
      (∀ p ∈ evs, strip p.1 ≠ "" →
        P { user := p.1, bot := terminalOf (p.2 p.1) }) →
      ∀ c ∈ evs.foldl (fun l ev => (handleSend ev.2 l ev.1).1) log, P c := by
  intro evs
  induction evs with
  | nil =>
    intro log hlog _ c hc
    exact hlog c hc
  | cons ev rest ih =>
    intro log hlog hevs c hc
    simp only [List.foldl] at hc
    refine ih ((handleSend ev.2 log ev.1).1) ?_ ?_ c hc
    · intro d hd
      by_cases hv : strip ev.1 = ""
      · rw [handleSend_invalid ev.2 log ev.1 hv] at hd
        exact hlog d hd
      · rw [handleSend_terminal ev.2 log ev.1 hv] at hd
        rcases List.mem_append.mp hd with h1 | h1
        · exact hlog d h1
        · have hval : d = { user := ev.1, bot := terminalOf (ev.2 ev.1) } := by
            simpa using h1
          rw [hval]
          exact hevs ev (List.mem_cons_self ev rest) hv
    · intro p hp hsp
      exact hevs p (List.mem_cons_of_mem ev hp) hsp

/-- Claim C10: in every reachable session state, the user field of every
transcript entry is non-empty and not whitespace-only, because entries are
appended only after the input passes the strip-emptiness check. -/
theorem c10_user_nonblank
    (evs : List (String × (String → Except String String)))
    (c : ChatEntry) (hc : c ∈ runSession evs) :
    c.user ≠ "" ∧ strip c.user ≠ "" := by
  have hP : strip c.user ≠ "" := by
    refine foldl_handleSend_inv (fun d => strip d.user ≠ "") evs []
      (by intro d hd; simp at hd) ?_ c hc
    intro p _ hsp
    exact hsp
  refine ⟨?_, hP⟩
  intro hemp
  apply hP
  rw [hemp]
  rfl

/-- Claim C10, witness: the entry produced by submitting `"A"`. -/
theorem c10_user_nonblank_witness :
    ({ user := "A", bot := "Hi" } : ChatEntry).user ≠ "" ∧
    strip ({ user := "A", bot := "Hi" } : ChatEntry).user ≠ "" :=
  c10_user_nonblank [("A", genOkHi)] { user := "A", bot := "Hi" } (by decide)

lemma countP_sentinel_mid (log : List ChatEntry)
    (hlog : ∀ c ∈ log, c.bot ≠ "Thinking...") (input : String) :
    (midLog log input).countP (fun c => c.bot == "Thinking...") = 1 := by
  unfold midLog
  rw [List.countP_append]
  have h0 : log.countP (fun c => c.bot == "Thinking...") = 0 := by
    rw [List.countP_eq_zero]
    intro c hc
    simpa using hlog c hc
  rw [h0]
  rfl

/-- Claim C4, counterexample: a generator may legitimately return the literal
sentinel string.  After the (fully resolved) submission of `"A"` the
transcript holds an entry whose bot text is the sentinel even though no
generation call is in flight, and during the next in-flight call two entries
carry the sentinel text, refuting both the "exactly one pending entry during a
call" and the "no pending entry outside a call" parts of the claim. -/
theorem c4_counterexample :
    runSession [("A", genSentinel)] =
      [{ user := "A", bot := "Thinking..." }] ∧
    strip "B" ≠ "" ∧
    (midLog (runSession [("A", genSentinel)]) "B").countP
      (fun c => c.bot == "Thinking...") = 2 := by
  refine ⟨rfl, by decide, ?_⟩
  rfl

/-- Claim C4 (amended): provided no generation call returns the literal
sentinel string `"Thinking..."`, the pending-entry invariant holds: in a
reachable resolved transcript no entry carries the sentinel text; while a
valid submission is in flight exactly one entry carries it, namely the most
recently appended one; and the submission resolves that entry to exactly one
terminal value (generated text or error marker) — after which, as long as a
successful result is not the sentinel itself, no sentinel entry remains. -/
theorem c4_pending_invariant
    (evs : List (String × (String → Except String String)))
    (hevs : ∀ p ∈ evs, ∀ r, p.2 p.1 = Except.ok r → r ≠ "Thinking...") :
    (∀ c ∈ runSession evs, c.bot ≠ "Thinking...") ∧
    (∀ input, strip input ≠ "" →
      (midLog (runSession evs) input).countP
        (fun c => c.bot == "Thinking...") = 1 ∧
      (midLog (runSession evs) input).getLast? = some (pendingEntry input) ∧
      (∀ g : String → Except String String,
        (handleSend g (runSession evs) input).1 =
          runSession evs ++ [{ user := input, bot := terminalOf (g input) }] ∧
        (∀ r, g input = Except.ok r → r ≠ "Thinking..." →
          (handleSend g (runSession evs) input).1.countP
            (fun c => c.bot == "Thinking...") = 0) ∧
        (∀ e, g input = Except.error e →
          (handleSend g (runSession evs) input).1.countP
            (fun c => c.bot == "Thinking...") = 0))) := by
  have hreach : ∀ c ∈ runSession evs, c.bot ≠ "Thinking..." := by
    refine foldl_handleSend_inv (fun d => d.bot ≠ "Thinking...") evs []
      (by intro d hd; simp at hd) ?_
    intro p hp hsp
    cases hg : p.2 p.1 with
    | ok r =>
      have : terminalOf (p.2 p.1) = r := by rw [hg]; rfl
      simpa [this] using hevs p hp r hg
    | error e =>
      simp only [hg, terminalOf]
      decide
  have hzero : (runSession evs).countP (fun c => c.bot == "Thinking...") = 0 := by
    rw [List.countP_eq_zero]
    intro c hc
    simpa using hreach c hc
  refine ⟨hreach, ?_⟩
  intro input hval
  refine ⟨countP_sentinel_mid (runSession evs) hreach input, ?_, ?_⟩
  · simp [midLog]
  · intro g
    have hterm := handleSend_terminal g (runSession evs) input hval
    refine ⟨hterm, ?_, ?_⟩
    · intro r hr hrs
      rw [hterm, List.countP_append, hzero]
      have : terminalOf (g input) = r := by rw [hr]; rfl
      simp [this, hrs]
    · intro e he
      rw [hterm, List.countP_append, hzero]
      have : terminalOf (g input) = "Error: Unable to process your request." := by
        rw [he]; rfl
      simp [this]

/-- Claim C4, witness: the one-submission session `"A"` answered `"Hi"`,
followed by an in-flight submission of `"B"` resolved by `genOkYo`. -/
theorem c4_pending_invariant_witness :
    (∀ c ∈ runSession [("A", genOkHi)], c.bot ≠ "Thinking...") ∧
    (∀ input, strip input ≠ "" →
      (midLog (runSession [("A", genOkHi)]) input).countP
        (fun c => c.bot == "Thinking...") = 1 ∧
      (midLog (runSession [("A", genOkHi)]) input).getLast? =
        some (pendingEntry input) ∧
      (∀ g : String → Except String String,
        (handleSend g (runSession [("A", genOkHi)]) input).1 =
          runSession [("A", genOkHi)] ++
            [{ user := input, bot := terminalOf (g input) }] ∧
        (∀ r, g input = Except.ok r → r ≠ "Thinking..." →
          (handleSend g (runSession [("A", genOkHi)]) input).1.countP
            (fun c => c.bot == "Thinking...") = 0) ∧
        (∀ e, g input = Except.error e →
          (handleSend g (runSession [("A", genOkHi)]) input).1.countP
            (fun c => c.bot == "Thinking...") = 0))) := by
  refine c4_pending_invariant [("A", genOkHi)] ?_
  intro p hp r hr
  simp only [List.mem_singleton] at hp
  subst hp
  simp only [genOkHi] at hr
  cases hr
  decide

/-- Claim C5: `generate_response` is exactly the encode / bounded-generate /
decode pipeline: whenever it returns text, the prompt was encoded to token
inputs, generation ran with `max_length = 50`, `num_return_sequences = 1` and
`no_repeat_ngram_size = 2` producing a first candidate sequence, and the
returned text is that sequence decoded with special tokens stripped. -/
theorem c5_generation_pipeline (rt : ModelRuntime) (prompt out : String)
    (h : generate_response rt prompt = Except.ok out) :
    ∃ inputs seq rest,
      rt.encode prompt = Except.ok inputs ∧
      rt.generate inputs 50 1 2 = Except.ok (seq :: rest) ∧
      rt.decode seq true = Except.ok out := by
  unfold generate_response at h
  cases he : rt.encode prompt with
  | error e => rw [he] at h; simp at h
  | ok inputs =>
    rw [he] at h
    dsimp only at h
    cases hg : rt.generate inputs 50 1 2 with
    | error e => rw [hg] at h; simp at h
    | ok outputs =>
      rw [hg] at h
      dsimp only at h
      cases outputs with
      | nil => simp at h
      | cons seq rest => exact ⟨inputs, seq, rest, rfl, hg, h⟩

/-- Claim C5, witness: the demo runtime on prompt `"Hello"`. -/
theorem c5_generation_pipeline_witness :
    ∃ inputs seq rest,
      rtDemo.encode "Hello" = Except.ok inputs ∧
      rtDemo.generate inputs 50 1 2 = Except.ok (seq :: rest) ∧
      rtDemo.decode seq true = Except.ok "" :=
  c5_generation_pipeline rtDemo "Hello" "" rfl

/-- Claim C6: for a non-empty prompt, when every underlying runtime call
succeeds, `generate_response` returns that decoded string (possibly empty) as
a normal value — no exception escapes its boundary. -/
theorem c6_success_returns_text (rt : ModelRuntime) (prompt : String)
    (_hne : prompt ≠ "") (inputs seq : List Nat) (rest : List (List Nat))
    (out : String)
    (h1 : rt.encode prompt = Except.ok inputs)
    (h2 : rt.generate inputs 50 1 2 = Except.ok (seq :: rest))
    (h3 : rt.decode seq true = Except.ok out) :
    generate_response rt prompt = Except.ok out := by
  unfold generate_response
  rw [h1]
  dsimp only
  rw [h2]
  dsimp only
  exact h3

/-- Claim C6, witness: the demo runtime on `"Hello"`, returning the empty
string. -/
theorem c6_success_returns_text_witness :
    generate_response rtDemo "Hello" = Except.ok "" :=
  c6_success_returns_text rtDemo "Hello" (by decide) [0] [0, 1] [] ""
    rfl rfl rfl
